/-
Verification of the tawhiri wind-dataset store and flight-model combinators.

The definitions below are a shallow embedding of `tawhiri/dataset.py` and
`tawhiri/models.py`.  Python machine arithmetic is embedded exactly:
`int` as `ℤ`/`ℕ`, true division (`/`) as division in `ℚ`, `int(x)` as
truncation toward zero, `range(a, b, s)` as the corresponding list, and
Python's `sorted` as a stable comparison sort.  The mutable class-level
attributes of `Dataset` (size, shape, axes, forecast_range) are threaded
explicitly as a value of type `DClass`; the module-global `descend_mark`
of `models.py` is threaded explicitly as scheduler state.
-/
import Mathlib

namespace Tawhiri

/-! ### Python primitives -/

/-- Python `int(q)` on a rational: truncation toward zero. -/
def pyInt (q : ℚ) : ℤ := q.num.tdiv q.den

/-- Number of elements of Python `range(start, stop, step)` for `step > 0`
(`0` when the step is not positive, which never happens in this code). -/
def pyRangeLen (start stop step : ℤ) : ℕ :=
  if 0 < step then ((stop - start + step - 1) / step).toNat else 0

/-- Python `range(start, stop, step)` as a list of integers. -/
def pyRange (start stop step : ℤ) : List ℤ :=
  (List.range (pyRangeLen start stop step)).map (fun (i : ℕ) => start + step * (i : ℤ))

/-- Python slicing `s[:n]` on a string. -/
def pyTake (s : String) (n : ℕ) : String := ⟨s.data.take n⟩

/-- Python slicing `s[n:]` on a string. -/
def pyDrop (s : String) (n : ℕ) : String := ⟨s.data.drop n⟩

/-! ### Grid layout (`Dataset` class attributes and `Dataset.setup`) -/

/-- `Dataset.pressures_pgrb2f`: pressure levels of a NOAA "pgrb2f" file. -/
def pressures_pgrb2f : List ℕ :=
  [10, 20, 30, 50, 70, 100, 150, 200, 250, 300, 350, 400,
   450, 500, 550, 600, 650, 700, 750, 800, 850, 900, 925,
   950, 975, 1000]

/-- `Dataset.pressures_pgrb2bf`: pressure levels of a NOAA "pgrb2bf" file. -/
def pressures_pgrb2bf : List ℕ :=
  [1, 2, 3, 5, 7, 125, 175, 225, 275, 325, 375, 425,
   475, 525, 575, 625, 675, 725, 775, 825, 875]

/-- Python `sorted(l, reverse=True)` on naturals: a stable descending sort. -/
def pySortDesc (l : List ℕ) : List ℕ := l.insertionSort (fun a b => b ≤ a)

/-- The 5-tuple of dimension extents `(hour, pressure, variable, latitude,
longitude)`. -/
def Shape : Type := ℕ × ℕ × ℕ × ℕ × ℕ

instance : DecidableEq Shape := by unfold Shape; infer_instance

/-- The extents of a shape as a list, in dimension order. -/
def Shape.list (s : Shape) : List ℕ := [s.1, s.2.1, s.2.2.1, s.2.2.2.1, s.2.2.2.2]

/-- The `axes` named tuple: coordinate values of the points on each axis. -/
structure Axes where
  hour : List ℤ
  pressure : List ℕ
  «variable» : List String
  latitude : List ℚ
  longitude : List ℚ
deriving DecidableEq, Repr

/-- Lengths of the five axes, in dimension order. -/
def Axes.lens (a : Axes) : List ℕ :=
  [a.hour.length, a.pressure.length, a.«variable».length,
   a.latitude.length, a.longitude.length]

/-- `Dataset.element_size`: the size in bytes of a float32 element. -/
def element_size : ℕ := 4

/-- The mutable class-level attributes of the Python `Dataset` class:
`forecast_range`, `shape`, `axes` and `size`.  `Dataset.setup` reassigns all
four on the class itself, so they are modelled as one explicit state value. -/
structure DClass where
  forecast_range : List ℤ
  shape : Shape
  axes : Axes
  size : ℕ
deriving DecidableEq

namespace Dataset

/-- `Dataset.setup(forecastHours)`: recompute `forecast_range`, `shape`,
`axes` and `size` for the given number of forecasting hours.  The argument
is a Python number (float after the true divisions in `__init__`), truncated
by `int()` inside `range`. -/
def setup (forecastHours : ℚ) : DClass :=
  let forecast_range := pyRange 0 (pyInt forecastHours + 3) 3
  let shape : Shape := (forecast_range.length, 47, 3, 361, 720)
  let axes : Axes :=
    { hour := forecast_range
      pressure := pySortDesc (pressures_pgrb2f ++ pressures_pgrb2bf)
      «variable» := ["height", "wind_u", "wind_v"]
      latitude := (pyRange (-180) (180 + 1) 1).map (fun (x : ℤ) => (x : ℚ) / 2)
      longitude := (pyRange 0 720 1).map (fun (x : ℤ) => (x : ℚ) / 2) }
  { forecast_range := forecast_range
    shape := shape
    axes := axes
    size := element_size * shape.1 * shape.2.1 * shape.2.2.1
              * shape.2.2.2.1 * shape.2.2.2.2 }

/-- The class attributes as initialised in the class body of `Dataset`
(`forecast_range = range(0, 192 + 3, 3)` and the literal shape/axes/size). -/
def initial : DClass :=
  let forecast_range := pyRange 0 (192 + 3) 3
  let shape : Shape := (forecast_range.length, 47, 3, 361, 720)
  let axes : Axes :=
    { hour := forecast_range
      pressure := pySortDesc (pressures_pgrb2f ++ pressures_pgrb2bf)
      «variable» := ["height", "wind_u", "wind_v"]
      latitude := (pyRange (-180) (180 + 1) 1).map (fun (x : ℤ) => (x : ℚ) / 2)
      longitude := (pyRange 0 720 1).map (fun (x : ℤ) => (x : ℚ) / 2) }
  { forecast_range := forecast_range
    shape := shape
    axes := axes
    size := element_size * shape.1 * shape.2.1 * shape.2.2.1
              * shape.2.2.2.1 * shape.2.2.2.2 }

/-- `Dataset.forecast_hours()`: `(cls.shape[0] - 1) * 3`, read from the
current class attributes. -/
def forecast_hours (cls : DClass) : ℤ := ((cls.shape.1 : ℤ) - 1) * 3

/-- The class attributes in effect when `__init__` reaches the size check on
an existing file of `sz` bytes: if `determineTime` is set, the forecasting
hours are re-derived from the file size by
`time = sz / element_size / shape[1] / shape[2] / shape[3] / shape[4]`
followed by `setup((time - 1) * 3)`; otherwise the class is untouched. -/
def deriveClass (cls : DClass) (determineTime : Bool) (sz : ℕ) : DClass :=
  if determineTime then
    let time : ℚ := (sz : ℚ) / (element_size : ℚ) / (cls.shape.2.1 : ℚ)
        / (cls.shape.2.2.1 : ℚ) / (cls.shape.2.2.2.1 : ℚ) / (cls.shape.2.2.2.2 : ℚ)
    setup ((time - 1) * 3)
  else cls

/-- The `new=False` branch of `Dataset.__init__`: after the optional horizon
re-derivation, the file size must equal `self.size` exactly, else
`ValueError("Dataset should be {0} bytes (was {1})")` is raised.  The error
payload is the pair (expected bytes, actual bytes); success returns the class
attributes under which the file was mapped. -/
def openExisting (cls : DClass) (determineTime : Bool) (sz : ℕ) :
    Except (ℕ × ℕ) DClass :=
  let cls' := deriveClass cls determineTime sz
  if sz ≠ cls'.size then .error (cls'.size, sz) else .ok cls'

end Dataset

/-! ### Directory scan (`Dataset.listdir`, `Dataset.open_latest`) -/

/-- A `datetime` value as produced by `strptime("%Y%m%d%H")`:
year, month, day, hour. -/
structure Timestamp where
  y : ℕ
  m : ℕ
  d : ℕ
  h : ℕ
deriving DecidableEq, Repr

/-- Chronological (lexicographic) order on timestamps, as used by Python
`datetime` comparison. -/
def tsLe (a b : Timestamp) : Prop :=
  a.y < b.y ∨ (a.y = b.y ∧ (a.m < b.m ∨ (a.m = b.m ∧
    (a.d < b.d ∨ (a.d = b.d ∧ a.h ≤ b.h)))))

instance : DecidableRel tsLe := fun a b => by unfold tsLe; infer_instance

/-- Gregorian leap year, as validated by `datetime`. -/
def isLeapYear (y : ℕ) : Bool := y % 4 == 0 && (y % 100 != 0 || y % 400 == 0)

/-- Number of days of month `m` of year `y`, as validated by `datetime`. -/
def daysInMonth (y m : ℕ) : ℕ :=
  if m = 2 then (if isLeapYear y then 29 else 28)
  else if m = 4 ∨ m = 6 ∨ m = 9 ∨ m = 11 then 30 else 31

/-- Numeric value of an ASCII digit. -/
def digitVal (c : Char) : ℕ := c.toNat - 48

/-- `datetime.strptime(s, "%Y%m%d%H")`: the whole string must be consumed,
which for this format forces ten digits split 4-2-2-2; the resulting fields
must form a valid `datetime` (year ≥ 1, month 1..12, day valid for the
month/year, hour 0..23).  `none` models the raised `ValueError`. -/
def strptime_YmdH (s : String) : Option Timestamp :=
  let cs := s.data
  if cs.length = 10 ∧ cs.all Char.isDigit then
    let n := fun i : ℕ => digitVal (cs.getD i '0')
    let y := ((n 0 * 10 + n 1) * 10 + n 2) * 10 + n 3
    let m := n 4 * 10 + n 5
    let d := n 6 * 10 + n 7
    let hh := n 8 * 10 + n 9
    if 1 ≤ y ∧ 1 ≤ m ∧ m ≤ 12 ∧ 1 ≤ d ∧ d ≤ daysInMonth y m ∧ hh ≤ 23 then
      some ⟨y, m, d, hh⟩
    else none
  else none

/-- `os.path.join(directory, filename)` for a relative filename. -/
def pathJoin (directory filename : String) : String :=
  directory ++ "/" ++ filename

/-- The `dataset_in_row` named tuple yielded by `Dataset.listdir`. -/
structure ListdirEntry where
  ds_time : Timestamp
  suffix : String
  filename : String
  path : String
deriving DecidableEq, Repr

/-- The skip test `only_suffices and suffix not in only_suffices`:
Python truthiness makes both `None` and an empty collection disable the
filter. -/
def skipBySuffix (only_suffices : Option (List String)) (suffix : String) :
    Bool :=
  match only_suffices with
  | none => false
  | some l => !l.isEmpty && !l.contains suffix

namespace Dataset

/-- The loop body of `Dataset.listdir` for one filename: filenames shorter
than 10 characters are skipped, the first 10 characters must parse as
`%Y%m%d%H` (parse failures are silently skipped, not errors), the remainder
of the filename is the suffix, and the suffix filter is applied with Python
truthiness. -/
def listdirRow (directory : String) (only_suffices : Option (List String))
    (filename : String) : Option ListdirEntry :=
  if filename.length < 10 then none
  else
    match strptime_YmdH (pyTake filename 10) with
    | none => none
    | some ds_time =>
      let suffix := pyDrop filename 10
      if skipBySuffix only_suffices suffix then none
      else some ⟨ds_time, suffix, filename, pathJoin directory filename⟩

/-- `Dataset.listdir(directory, only_suffices)`, with the directory contents
given as the list of filenames returned by `os.listdir`. -/
def listdir (directory : String) (files : List String)
    (only_suffices : Option (List String)) : List ListdirEntry :=
  files.filterMap (listdirRow directory only_suffices)

/-- Descending order on listdir rows, as used by
`sorted(datasets, reverse=True)`.  The named tuples compare by `ds_time`
first; rows tied on `ds_time` are identical in the `open_latest` scan (an
empty suffix makes the filename, and hence the whole row, a function of the
timestamp), so the comparison is by `ds_time`. -/
def entryGE (a b : ListdirEntry) : Prop := tsLe b.ds_time a.ds_time

instance : DecidableRel entryGE := fun a b => by unfold entryGE; infer_instance

/-- The dataset time selected by `Dataset.open_latest`:
`sorted(Dataset.listdir(directory, only_suffices=('',)), reverse=True)[0]
.ds_time`; `none` models the `IndexError` on an empty scan. -/
def open_latest_time (directory : String) (files : List String) :
    Option Timestamp :=
  match (listdir directory files (some [""])).insertionSort entryGE with
  | [] => none
  | e :: _ => some e.ds_time

end Dataset

/-- A `Dataset` instance as held by the latest-dataset cache.  `id` is the
allocation identity of the Python object: each `Dataset(...)` construction
yields a fresh one, so two values with the same `id` are the same instance. -/
structure CachedDS where
  ds_time : Timestamp
  directory : String
  id : ℕ
deriving DecidableEq, Repr

/-- Process-wide state read and written by `Dataset.open_latest`:
the `Dataset.cached_latest` slot and the next fresh allocation identity. -/
structure LatestState where
  cached : Option CachedDS
  nextId : ℕ
deriving DecidableEq, Repr

namespace Dataset

/-- `Dataset.prune_latest`: the `SIGALRM` handler clears the cache slot. -/
def prune_latest (st : LatestState) : LatestState :=
  { st with cached := none }

/-- `Dataset.open_latest(directory, persistent)`: select the latest dataset
time; a cached dataset is reused iff it exists and its `ds_time` and
`directory` both equal the selected time and the requested directory
(`valid = cached and cached.ds_time == latest and cached.directory ==
directory`); otherwise a fresh `Dataset` is constructed, and installed in
the cache slot (replacing it) when `persistent` is set.  The alarm rearm has
no effect on this state.  `none` models the `IndexError` when the scan finds
no dataset. -/
def open_latest (st : LatestState) (directory : String) (files : List String)
    (persistent : Bool) : Option (CachedDS × LatestState) :=
  match open_latest_time directory files with
  | none => none
  | some latest =>
    match st.cached with
    | some cached =>
      if cached.ds_time = latest ∧ cached.directory = directory then
        some (cached, st)
      else
        let ds : CachedDS := ⟨latest, directory, st.nextId⟩
        some (ds, ⟨if persistent then some ds else st.cached, st.nextId + 1⟩)
    | none =>
      let ds : CachedDS := ⟨latest, directory, st.nextId⟩
      some (ds, ⟨if persistent then some ds else st.cached, st.nextId + 1⟩)

end Dataset

/-! ### Motion models and termination predicates (`models.py`) -/

/-- A motion model: `(t, lat, lng, alt) -> (dlat, dlng, dalt)`.  Python
float arithmetic is embedded as exact rational arithmetic. -/
def Model : Type := ℚ → ℚ → ℚ → ℚ → ℚ × ℚ × ℚ

/-- A termination predicate.  The Python functions return `True` or fall off
the end returning `None`; the result is embedded as `Option Bool` and
consumed at its truthiness. -/
def Terminator : Type := ℚ → ℚ → ℚ → ℚ → Option Bool

/-- Python truthiness of a `True`/`False`/`None` result. -/
def truthy : Option Bool → Bool
  | none => false
  | some b => b

/-- `make_constant_ascent(ascent_rate)`. -/
def make_constant_ascent (ascent_rate : ℚ) : Model :=
  fun _t _lat _lng _alt => (0, 0, ascent_rate)

/-- `make_linear_model(models)`: `linear_model` starts from `(0.0, 0.0,
0.0)` and accumulates each sub-model's output component-wise, in order. -/
def make_linear_model (models : List Model) : Model :=
  fun t lat lng alt =>
    models.foldl
      (fun acc model =>
        let d := model t lat lng alt
        (acc.1 + d.1, acc.2.1 + d.2.1, acc.2.2 + d.2.2))
      (0, 0, 0)

/-- `make_burst_termination(burst_altitude)`: returns `True` when
`alt >= burst_altitude`, otherwise falls off the end (`None`). -/
def make_burst_termination (burst_altitude : ℚ) : Terminator :=
  fun _t _lat _lng alt => if alt ≥ burst_altitude then some true else none

/-- `make_time_termination(max_time)`: returns `True` when `t > max_time`,
otherwise falls off the end (`None`). -/
def make_time_termination (max_time : ℚ) : Terminator :=
  fun t _lat _lng _alt => if t > max_time then some true else none

/-- `make_any_terminator(terminators)`: `any(term(t, lat, lng, alt) for term
in terminators)` — a genuine `bool`, true iff some sub-result is truthy. -/
def make_any_terminator (terminators : List Terminator) : Terminator :=
  fun t lat lng alt =>
    some (terminators.any (fun term => truthy (term t lat lng alt)))

/-! ### The sun-relative up/down scheduler (`make_ascent_descent`)

The closure returned by `make_ascent_descent` reads and writes the
module-global `descend_mark` (initially `-1.0`).  The global is threaded
here as explicit state: one evaluation maps a mark value to the updated
mark value and the returned derivative vector.  The external `suntime`
library is abstracted as an oracle giving, for the evaluation's `(t, lat,
lng)`, the sunrise and sunset timestamps of the current date (`none` models
`SunTimeException`). -/

/-- Sunrise/sunset oracle: `(t, lat, lng) ↦ (sunrise time?, sunset time?)`. -/
def SunOracle : Type := ℚ → ℚ → ℚ → Option ℚ × Option ℚ

/-- Parameters captured by `make_ascent_descent`. -/
structure UpDownParams where
  ascent_rate : ℚ
  float_alt : ℚ
  descent_rate : ℚ
  descent_before_sunset : ℚ
  descent_duration : ℚ
deriving DecidableEq, Repr

/-- One evaluation of the `up_down` closure: takes the current value of the
global `descend_mark` and returns its new value together with the derivative
vector.  Mirrors the source line by line: no sunrise holds position (mark
untouched); no sunset makes `descent_t = 0` ("never descend"); the descent
window test branches on `descent_t < sunrise_t`; inside the window an unset
(negative) mark is set to `t` and an elapsed `descent_duration` turns the
descent into a hold; outside the window the mark is reset to `-1`. -/
def up_down_step (sun : SunOracle) (p : UpDownParams) (mark : ℚ)
    (t lat lng alt : ℚ) : ℚ × (ℚ × ℚ × ℚ) :=
  match (sun t lat lng).1 with
  | none => (mark, (0, 0, 0))
  | some sunrise_t =>
    let descent_t : ℚ :=
      match (sun t lat lng).2 with
      | none => 0
      | some sunset_t => sunset_t - p.descent_before_sunset
    let should_descend : Bool :=
      if descent_t < sunrise_t then
        decide (descent_t > 0) && (decide (t > descent_t) && decide (t < sunrise_t))
      else
        decide (descent_t > 0) && (decide (t > descent_t) || decide (t < sunrise_t))
    if should_descend then
      let mark1 := if mark < 0 then t else mark
      if p.descent_duration ≥ 0 ∧ t > mark1 + p.descent_duration then
        (mark1, (0, 0, 0))
      else
        (mark1, (0, 0, -p.descent_rate))
    else if alt < p.float_alt then
      (-1, (0, 0, p.ascent_rate))
    else
      (-1, (0, 0, 0))

/-- One evaluation request: `(t, lat, lng, alt)`. -/
def UpDownInput : Type := ℚ × ℚ × ℚ × ℚ

/-- Run one `up_down` closure over a sequence of evaluations, threading the
`descend_mark` state; returns the derivative vectors in order.  This is the
behaviour the closure would have were the mark private to it. -/
def runModel (sun : SunOracle) (p : UpDownParams) :
    ℚ → List UpDownInput → List (ℚ × ℚ × ℚ)
  | _, [] => []
  | mark, (t, lat, lng, alt) :: evs =>
    let r := up_down_step sun p mark t lat lng alt
    r.2 :: runModel sun p r.1 evs

/-- Run two independently created `up_down` closures (parameters `pA` and
`pB`) over an interleaved sequence of evaluations (`true` tags an evaluation
of A, `false` of B), threading the single module-global `descend_mark`
through both, exactly as the source does; returns the tagged derivative
vectors in order. -/
def runShared (sun : SunOracle) (pA pB : UpDownParams) :
    ℚ → List (Bool × UpDownInput) → List (Bool × (ℚ × ℚ × ℚ))
  | _, [] => []
  | mark, (tag, t, lat, lng, alt) :: evs =>
    let r := up_down_step sun (if tag then pA else pB) mark t lat lng alt
    (tag, r.2) :: runShared sun pA pB r.1 evs

/-- The outputs one of the two interleaved closures observed. -/
def outputsOf (tag : Bool) (l : List (Bool × (ℚ × ℚ × ℚ))) :
    List (ℚ × ℚ × ℚ) :=
  l.filterMap (fun x => if x.1 = tag then some x.2 else none)

/-! ### Helper lemmas -/

theorem pyInt_natCast (n : ℕ) : pyInt (n : ℚ) = n := by
  unfold pyInt
  rw [Rat.num_natCast, Rat.den_natCast]
  exact Int.tdiv_one _

theorem pyRange_length (a b s : ℤ) : (pyRange a b s).length = pyRangeLen a b s := by
  unfold pyRange
  rw [List.length_map, List.length_range]

theorem pyRangeLen_step3 (h : ℕ) (h3 : h % 3 = 0) :
    pyRangeLen 0 ((h : ℤ) + 3) 3 = h / 3 + 1 := by
  unfold pyRangeLen
  rw [if_pos (by norm_num)]
  omega

theorem setup_shape (x : ℚ) :
    (Dataset.setup x).shape = (pyRangeLen 0 (pyInt x + 3) 3, 47, 3, 361, 720) := by
  simp only [Dataset.setup]
  rw [pyRange_length]

theorem setup_size (x : ℚ) :
    (Dataset.setup x).size =
      element_size * pyRangeLen 0 (pyInt x + 3) 3 * 47 * 3 * 361 * 720 := by
  simp only [Dataset.setup]
  rw [pyRange_length]

theorem pressure_axis_length :
    (pySortDesc (pressures_pgrb2f ++ pressures_pgrb2bf)).length = 47 := by
  unfold pySortDesc
  rw [List.length_insertionSort]
  decide

theorem lat_axis_length : (pyRange (-180) (180 + 1) 1).length = 361 := by
  rw [pyRange_length]
  decide

theorem lng_axis_length : (pyRange 0 720 1).length = 720 := by
  rw [pyRange_length]
  decide

theorem setup_axes_lens (x : ℚ) :
    (Dataset.setup x).axes.lens = (Dataset.setup x).shape.list := by
  simp only [Dataset.setup, Axes.lens, Shape.list]
  rw [pressure_axis_length]
  rw [List.length_map, List.length_map, lat_axis_length, lng_axis_length]
  rfl

theorem initial_shape2 : Dataset.initial.shape.2 = ((47 : ℕ), 3, 361, 720) := rfl

theorem deriveClass_eq (cls : DClass) (sz : ℕ)
    (h : cls.shape.2 = ((47 : ℕ), 3, 361, 720)) :
    Dataset.deriveClass cls true sz =
      Dataset.setup (((sz : ℚ) / (4 * 47 * 3 * 361 * 720) - 1) * 3) := by
  have h1 : cls.shape.2.1 = 47 := by rw [h]
  have h2 : cls.shape.2.2.1 = 3 := by rw [h]
  have h3 : cls.shape.2.2.2.1 = 361 := by rw [h]
  have h4 : cls.shape.2.2.2.2 = 720 := by rw [h]
  unfold Dataset.deriveClass
  rw [if_pos rfl, h1, h2, h3, h4]
  rw [div_div, div_div, div_div, div_div]
  norm_num [element_size]

/-- The byte size of a dataset file holding `h / 3 + 1` hour slabs. -/
theorem derived_arg_eq (h : ℕ) (h3 : h % 3 = 0) :
    (((4 * (h / 3 + 1) * 47 * 3 * 361 * 720 : ℕ) : ℚ)
        / (4 * 47 * 3 * 361 * 720) - 1) * 3 = (h : ℚ) := by
  obtain ⟨k, rfl⟩ : ∃ k, h = 3 * k := ⟨h / 3, by omega⟩
  have hk : 3 * k / 3 = k := by omega
  rw [hk]
  push_cast
  field_simp
  ring

theorem setup_size_nat (h : ℕ) (h3 : h % 3 = 0) :
    (Dataset.setup (h : ℚ)).size = 4 * (h / 3 + 1) * 47 * 3 * 361 * 720 := by
  rw [setup_size, pyInt_natCast, pyRangeLen_step3 h h3]
  rfl

theorem open_derive_nat (h : ℕ) (h3 : h % 3 = 0) :
    Dataset.openExisting Dataset.initial true
        (4 * (h / 3 + 1) * 47 * 3 * 361 * 720) = .ok (Dataset.setup (h : ℚ)) := by
  unfold Dataset.openExisting
  rw [deriveClass_eq Dataset.initial _ initial_shape2, derived_arg_eq h h3]
  rw [if_neg (by rw [setup_size_nat h h3]; exact fun hne => hne rfl)]

theorem tsLe_refl (a : Timestamp) : tsLe a a := by
  unfold tsLe
  omega

theorem tsLe_total (a b : Timestamp) : tsLe a b ∨ tsLe b a := by
  unfold tsLe
  omega

theorem tsLe_trans (a b c : Timestamp) : tsLe a b → tsLe b c → tsLe a c := by
  unfold tsLe
  omega

instance : IsTotal ListdirEntry Dataset.entryGE :=
  ⟨fun a b => tsLe_total b.ds_time a.ds_time⟩

instance : IsTrans ListdirEntry Dataset.entryGE :=
  ⟨fun _ _ _ hab hbc => tsLe_trans _ _ _ hbc hab⟩

theorem open_latest_time_max (dir : String) (files : List String)
    (e : ListdirEntry) (he : e ∈ Dataset.listdir dir files (some [""])) :
    ∃ t, Dataset.open_latest_time dir files = some t ∧ tsLe e.ds_time t ∧
      ∃ e' ∈ Dataset.listdir dir files (some [""]), e'.ds_time = t := by
  unfold Dataset.open_latest_time
  have hsorted :=
    List.sorted_insertionSort Dataset.entryGE (Dataset.listdir dir files (some [""]))
  have he' : e ∈ (Dataset.listdir dir files (some [""])).insertionSort Dataset.entryGE :=
    (List.mem_insertionSort Dataset.entryGE).mpr he
  cases hs : (Dataset.listdir dir files (some [""])).insertionSort Dataset.entryGE with
  | nil => rw [hs] at he'; cases he'
  | cons e0 rest =>
    rw [hs] at he' hsorted
    refine ⟨e0.ds_time, rfl, ?_, e0, ?_, rfl⟩
    · rcases List.mem_cons.mp he' with h | hmem
      · rw [h]; exact tsLe_refl _
      · exact List.rel_of_sorted_cons hsorted _ hmem
    · have h0 : e0 ∈ e0 :: rest := List.mem_cons_self e0 rest
      rw [← hs] at h0
      exact (List.mem_insertionSort Dataset.entryGE).mp h0

/-! ### Claims -/

/-- C1: opening an existing dataset (`new=False`) succeeds and maps the file
if and only if the file size equals the `total_bytes` computed after the
optional horizon re-derivation; on any mismatch it fails once (no retry)
with a sizing error carrying the expected and the actual byte counts. -/
theorem open_existing_size_gate (cls : DClass) (determineTime : Bool) (sz : ℕ) :
    (sz = (Dataset.deriveClass cls determineTime sz).size →
        Dataset.openExisting cls determineTime sz =
          .ok (Dataset.deriveClass cls determineTime sz)) ∧
    (sz ≠ (Dataset.deriveClass cls determineTime sz).size →
        Dataset.openExisting cls determineTime sz =
          .error ((Dataset.deriveClass cls determineTime sz).size, sz)) := by
  unfold Dataset.openExisting
  exact ⟨fun h => by rw [if_neg (fun hne => hne h)], fun h => by rw [if_pos h]⟩

/-- Witness for C1: a correctly sized file (9528667200 bytes, the default
192-hour layout) opens, and a 5-byte file fails with the sizing error
reporting expected 9528667200 and actual 5 bytes. -/
theorem open_existing_size_gate_witness :
    (9528667200 = (Dataset.deriveClass Dataset.initial false 9528667200).size ∧
      Dataset.openExisting Dataset.initial false 9528667200 =
        .ok (Dataset.deriveClass Dataset.initial false 9528667200)) ∧
    ((5 : ℕ) ≠ (Dataset.deriveClass Dataset.initial false 5).size ∧
      Dataset.openExisting Dataset.initial false 5 =
        .error ((Dataset.deriveClass Dataset.initial false 5).size, 5)) :=
  ⟨⟨by decide, (open_existing_size_gate Dataset.initial false 9528667200).1 (by decide)⟩,
   ⟨by decide, (open_existing_size_gate Dataset.initial false 5).2 (by decide)⟩⟩

/-- C2: opening an existing dataset with `determineTime` recomputes the
horizon from the file size as `hour_steps = size / (4 × 47 × 3 × 361 × 720)`
and `forecastHours = (hour_steps − 1) × 3`, re-deriving shape/axes from that
horizon; in particular a file sized for `forecast_horizon_hours = 192`
exposes shape `(65, 47, 3, 361, 720)` and
`total_bytes = 4 × 65 × 47 × 3 × 361 × 720`. -/
theorem derive_horizon_recompute :
    (∀ (cls : DClass) (sz : ℕ), cls.shape.2 = ((47 : ℕ), 3, 361, 720) →
        Dataset.deriveClass cls true sz =
          Dataset.setup (((sz : ℚ) / (4 * 47 * 3 * 361 * 720) - 1) * 3)) ∧
    Dataset.openExisting Dataset.initial true (4 * 65 * 47 * 3 * 361 * 720) =
      .ok (Dataset.setup 192) ∧
    (Dataset.setup 192).shape = ((65 : ℕ), 47, 3, 361, 720) ∧
    (Dataset.setup 192).size = 4 * 65 * 47 * 3 * 361 * 720 := by
  refine ⟨deriveClass_eq, ?_, by decide, by decide⟩
  have h := open_derive_nat 192 (by norm_num)
  norm_num at h
  convert h using 3

/-- Witness for C2: the general re-derivation formula applied to the default
class attributes and a 0-byte file. -/
theorem derive_horizon_recompute_witness :
    Dataset.deriveClass Dataset.initial true 0 =
      Dataset.setup ((((0 : ℕ) : ℚ) / (4 * 47 * 3 * 361 * 720) - 1) * 3) :=
  derive_horizon_recompute.1 Dataset.initial 0 (by decide)

/-- C6: for every valid number of forecasting hours (a multiple of 3), the
computed layout satisfies `len(axes[i]) = shape[i]` for every axis,
`shape = (hours / 3 + 1, 47, 3, 361, 720)`, and
`total_bytes = 4 × product(shape)`. -/
theorem layout_shape_axes_size (h : ℕ) (h3 : h % 3 = 0) :
    (Dataset.setup (h : ℚ)).axes.lens = (Dataset.setup (h : ℚ)).shape.list ∧
    (Dataset.setup (h : ℚ)).shape = (h / 3 + 1, 47, 3, 361, 720) ∧
    (Dataset.setup (h : ℚ)).size = 4 * (Dataset.setup (h : ℚ)).shape.list.prod := by
  have hsh : (Dataset.setup (h : ℚ)).shape = (h / 3 + 1, 47, 3, 361, 720) := by
    rw [setup_shape, pyInt_natCast, pyRangeLen_step3 h h3]
  refine ⟨setup_axes_lens _, hsh, ?_⟩
  rw [setup_size, pyInt_natCast, pyRangeLen_step3 h h3, hsh]
  show element_size * (h / 3 + 1) * 47 * 3 * 361 * 720 =
    4 * ([h / 3 + 1, 47, 3, 361, 720].prod)
  simp only [List.prod_cons, List.prod_nil, element_size]
  ring

/-- Witness for C6: the layout invariants at 192 forecasting hours. -/
theorem layout_shape_axes_size_witness :
    (Dataset.setup ((192 : ℕ) : ℚ)).axes.lens =
      (Dataset.setup ((192 : ℕ) : ℚ)).shape.list ∧
    (Dataset.setup ((192 : ℕ) : ℚ)).shape = (192 / 3 + 1, 47, 3, 361, 720) ∧
    (Dataset.setup ((192 : ℕ) : ℚ)).size =
      4 * (Dataset.setup ((192 : ℕ) : ℚ)).shape.list.prod :=
  layout_shape_axes_size 192 (by norm_num)

/-- C10: opening an existing dataset with `determineTime=True` reassigns the
class-level attributes of `Dataset` itself (modelled as the explicit class
state), so the derived layout becomes the default observed by
`forecast_hours()` and by every subsequent open: after opening a file sized
for horizon `h1`, the class state reports `forecast_hours = h1` and a
subsequent non-deriving open of a file sized for a different horizon `h2`
fails against the rewritten class size. -/
theorem derive_sets_class_defaults (h1 h2 : ℕ) (h13 : h1 % 3 = 0)
    (h23 : h2 % 3 = 0) (hne : h1 ≠ h2) :
    ∃ cls', Dataset.openExisting Dataset.initial true
        (4 * (h1 / 3 + 1) * 47 * 3 * 361 * 720) = .ok cls' ∧
      Dataset.forecast_hours cls' = h1 ∧
      cls'.size = 4 * (h1 / 3 + 1) * 47 * 3 * 361 * 720 ∧
      Dataset.openExisting cls' false (4 * (h2 / 3 + 1) * 47 * 3 * 361 * 720) =
        .error (cls'.size, 4 * (h2 / 3 + 1) * 47 * 3 * 361 * 720) := by
  refine ⟨Dataset.setup (h1 : ℚ), open_derive_nat h1 h13, ?_,
    setup_size_nat h1 h13, ?_⟩
  · unfold Dataset.forecast_hours
    rw [setup_shape, pyInt_natCast, pyRangeLen_step3 h1 h13]
    obtain ⟨k, rfl⟩ : ∃ k, h1 = 3 * k := ⟨h1 / 3, by omega⟩
    have hk : 3 * k / 3 = k := by omega
    rw [hk]
    push_cast
    ring
  · unfold Dataset.openExisting Dataset.deriveClass
    simp only [Bool.false_eq_true, if_false]
    rw [if_pos]
    rw [setup_size_nat h1 h13]
    intro heq
    omega

/-- Witness for C10: opening a 24-hour file rewrites the class defaults, so
a 192-hour file (the prior default size) no longer opens. -/
theorem derive_sets_class_defaults_witness :
    ∃ cls', Dataset.openExisting Dataset.initial true
        (4 * (24 / 3 + 1) * 47 * 3 * 361 * 720) = .ok cls' ∧
      Dataset.forecast_hours cls' = 24 ∧
      cls'.size = 4 * (24 / 3 + 1) * 47 * 3 * 361 * 720 ∧
      Dataset.openExisting cls' false (4 * (192 / 3 + 1) * 47 * 3 * 361 * 720) =
        .error (cls'.size, 4 * (192 / 3 + 1) * 47 * 3 * 361 * 720) :=
  derive_sets_class_defaults 24 192 (by norm_num) (by norm_num) (by norm_num)

/-- C3: whenever the scan yields at least one empty-suffix row,
`open_latest` selects the maximum `ds_time` among the empty-suffix rows (a
time attained by some row); for files timestamped `2014020100`,
`2014020103` and `2014013118` it selects `2014020103`. -/
theorem latest_selects_max :
    (∀ (dir : String) (files : List String) (e : ListdirEntry),
        e ∈ Dataset.listdir dir files (some [""]) →
        ∃ t, Dataset.open_latest_time dir files = some t ∧ tsLe e.ds_time t ∧
          ∃ e' ∈ Dataset.listdir dir files (some [""]), e'.ds_time = t) ∧
    Dataset.open_latest_time "d" ["2014020100", "2014020103", "2014013118"] =
      some ⟨2014, 2, 1, 3⟩ :=
  ⟨open_latest_time_max, by decide⟩

/-- Witness for C3: the maximality statement applied to the `2014020100`
row of the concrete directory. -/
theorem latest_selects_max_witness :
    ∃ t, Dataset.open_latest_time "d" ["2014020100", "2014020103", "2014013118"] =
        some t ∧
      tsLe ⟨2014, 2, 1, 0⟩ t ∧
      ∃ e' ∈ Dataset.listdir "d" ["2014020100", "2014020103", "2014013118"]
          (some [""]), e'.ds_time = t :=
  latest_selects_max.1 "d" ["2014020100", "2014020103", "2014013118"]
    ⟨⟨2014, 2, 1, 0⟩, "", "2014020100", "d/2014020100"⟩ (by decide)

/-- C4: a cache hit requires the cached entry's `ds_time` AND `directory`
to both equal the selected maximum time and the requested directory; on any
mismatch a fresh `Dataset` is constructed and, when `persistent` is set,
replaces the cache entry; consequently two persistent `open_latest` calls in
immediate succession over an unchanged, non-expired directory return the
same `Dataset` instance and leave the state unchanged. -/
theorem latest_cache_hit_requires_match :
    (∀ (st : LatestState) (dir : String) (files : List String)
        (persistent : Bool) (c : CachedDS) (latest : Timestamp),
        Dataset.open_latest_time dir files = some latest →
        st.cached = some c →
        Dataset.open_latest st dir files persistent =
          if c.ds_time = latest ∧ c.directory = dir then some (c, st)
          else some (⟨latest, dir, st.nextId⟩,
            ⟨if persistent then some ⟨latest, dir, st.nextId⟩ else st.cached,
             st.nextId + 1⟩)) ∧
    (∀ (st : LatestState) (dir : String) (files : List String)
        (ds : CachedDS) (st' : LatestState),
        Dataset.open_latest st dir files true = some (ds, st') →
        Dataset.open_latest st' dir files true = some (ds, st')) := by
  constructor
  · intro st dir files persistent c latest hlatest hcached
    unfold Dataset.open_latest
    rw [hlatest, hcached]
  · intro st dir files ds st' hfirst
    unfold Dataset.open_latest at hfirst ⊢
    revert hfirst
    cases hlatest : Dataset.open_latest_time dir files with
    | none =>
      intro hfirst
      dsimp only at hfirst
      cases hfirst
    | some latest =>
      intro hfirst
      dsimp only at hfirst ⊢
      revert hfirst
      cases hcached : st.cached with
      | some c =>
        intro hfirst
        dsimp only at hfirst
        by_cases hhit : c.ds_time = latest ∧ c.directory = dir
        · rw [if_pos hhit] at hfirst
          have h2 := Option.some.inj hfirst
          obtain ⟨rfl, rfl⟩ : ds = c ∧ st' = st :=
            ⟨(congrArg Prod.fst h2).symm, (congrArg Prod.snd h2).symm⟩
          rw [hcached]
          dsimp only
          rw [if_pos hhit]
        · rw [if_neg hhit] at hfirst
          have h2 := Option.some.inj hfirst
          obtain ⟨rfl, rfl⟩ :
              ds = ⟨latest, dir, st.nextId⟩ ∧
              st' = ⟨some ⟨latest, dir, st.nextId⟩, st.nextId + 1⟩ :=
            ⟨(congrArg Prod.fst h2).symm, (congrArg Prod.snd h2).symm⟩
          simp
      | none =>
        intro hfirst
        dsimp only at hfirst
        have h2 := Option.some.inj hfirst
        obtain ⟨rfl, rfl⟩ :
            ds = ⟨latest, dir, st.nextId⟩ ∧
            st' = ⟨some ⟨latest, dir, st.nextId⟩, st.nextId + 1⟩ :=
          ⟨(congrArg Prod.fst h2).symm, (congrArg Prod.snd h2).symm⟩
        simp

/-- Witness for C4: from an empty cache over the concrete directory, the
first persistent call installs the `2014020103` dataset (id 0), and the
second call returns that very instance with the state unchanged. -/
theorem latest_cache_hit_requires_match_witness :
    Dataset.open_latest ⟨some ⟨⟨2014, 2, 1, 3⟩, "d", 0⟩, 1⟩ "d"
        ["2014020100", "2014020103", "2014013118"] true =
      some (⟨⟨2014, 2, 1, 3⟩, "d", 0⟩, ⟨some ⟨⟨2014, 2, 1, 3⟩, "d", 0⟩, 1⟩) :=
  latest_cache_hit_requires_match.2 ⟨none, 0⟩ "d"
    ["2014020100", "2014020103", "2014013118"]
    ⟨⟨2014, 2, 1, 3⟩, "d", 0⟩ ⟨some ⟨⟨2014, 2, 1, 3⟩, "d", 0⟩, 1⟩ (by decide)

theorem listdirRow_eq_some (dir : String) (os : Option (List String))
    (fn : String) (e : ListdirEntry) :
    Dataset.listdirRow dir os fn = some e ↔
      ¬ fn.length < 10 ∧
      strptime_YmdH (pyTake fn 10) = some e.ds_time ∧
      e.suffix = pyDrop fn 10 ∧
      skipBySuffix os (pyDrop fn 10) = false ∧
      e.filename = fn ∧ e.path = pathJoin dir fn := by
  unfold Dataset.listdirRow
  by_cases hlen : fn.length < 10
  · simp [hlen]
  · rw [if_neg hlen]
    cases hts : strptime_YmdH (pyTake fn 10) with
    | none => simp [hts]
    | some ts =>
      dsimp only
      by_cases hskip : skipBySuffix os (pyDrop fn 10) = true
      · rw [if_pos hskip]
        simp [hts, hskip, hlen]
      · rw [if_neg hskip]
        simp only [Bool.not_eq_true] at hskip
        simp [hts, hskip, hlen]
        constructor
        · rintro rfl
          exact ⟨rfl, rfl, rfl, rfl⟩
        · rintro ⟨h1, h2, h3, h4⟩
          cases e
          cases h1
          simp_all

/-- C7 (counterexample to the claim as stated): with the suffix filter
*given* as the empty collection, the scan still yields the `2014020100`
entry, whose empty suffix is not a member of the given filter — Python
truthiness disables an empty filter. -/
theorem listdir_empty_filter_yields_nonmember :
    Dataset.listdir "d" ["2014020100"] (some []) =
      [⟨⟨2014, 2, 1, 0⟩, "", "2014020100", "d/2014020100"⟩] ∧
    ¬ ("" ∈ ([] : List String)) :=
  ⟨by decide, by decide⟩

/-- C7 (amended): the scan yields exactly the entries whose filename has at
least 10 characters and whose first 10 characters parse as `%Y%m%d%H`
(filenames that fail to parse are silently skipped, the scan is total); the
remainder of the filename is the suffix; and a *non-empty* given
suffix_filter restricts the yield to member suffixes, while an absent or
empty filter yields everything (`skipBySuffix` is exactly that test). -/
theorem listdir_scan_characterization (dir : String) (files : List String)
    (os : Option (List String)) (e : ListdirEntry) :
    e ∈ Dataset.listdir dir files os ↔
      ∃ fn ∈ files, ¬ fn.length < 10 ∧
        strptime_YmdH (pyTake fn 10) = some e.ds_time ∧
        e.suffix = pyDrop fn 10 ∧
        skipBySuffix os (pyDrop fn 10) = false ∧
        e.filename = fn ∧ e.path = pathJoin dir fn := by
  unfold Dataset.listdir
  rw [List.mem_filterMap]
  exact exists_congr fun fn =>
    and_congr_right fun _ => listdirRow_eq_some dir os fn e

/-- C8: `make_linear_model` returns the component-wise sum of the
sub-models' outputs at the same state; the empty list yields the zero
vector, and the two-model case is exactly `a + b` component-wise. -/
theorem sum_models_componentwise :
    (∀ (models : List Model) (t lat lng alt : ℚ),
        make_linear_model models t lat lng alt =
          ((models.map (fun m => (m t lat lng alt).1)).sum,
           (models.map (fun m => (m t lat lng alt).2.1)).sum,
           (models.map (fun m => (m t lat lng alt).2.2)).sum)) ∧
    (∀ t lat lng alt : ℚ, make_linear_model [] t lat lng alt = (0, 0, 0)) ∧
    (∀ (a b : Model) (t lat lng alt : ℚ),
        make_linear_model [a, b] t lat lng alt =
          ((a t lat lng alt).1 + (b t lat lng alt).1,
           (a t lat lng alt).2.1 + (b t lat lng alt).2.1,
           (a t lat lng alt).2.2 + (b t lat lng alt).2.2)) := by
  have key : ∀ (models : List Model) (t lat lng alt : ℚ) (init : ℚ × ℚ × ℚ),
      models.foldl (fun acc model =>
          let d := model t lat lng alt
          (acc.1 + d.1, acc.2.1 + d.2.1, acc.2.2 + d.2.2)) init =
        (init.1 + (models.map (fun m => (m t lat lng alt).1)).sum,
         init.2.1 + (models.map (fun m => (m t lat lng alt).2.1)).sum,
         init.2.2 + (models.map (fun m => (m t lat lng alt).2.2)).sum) := by
    intro models t lat lng alt init
    induction models generalizing init with
    | nil => simp
    | cons m ms ih => simp [ih, add_assoc]
  refine ⟨?_, ?_, ?_⟩
  · intro models t lat lng alt
    unfold make_linear_model
    rw [key]
    simp
  · intro t lat lng alt
    rfl
  · intro a b t lat lng alt
    unfold make_linear_model
    rw [key]
    simp [add_assoc]

/-- C9: `make_any_terminator []` returns `False` at every state;
`make_any_terminator [p]` has the same truthiness as `p` at every state; in
general the result is truthy iff at least one sub-predicate's result is
truthy. -/
theorem any_of_truthiness :
    (∀ t lat lng alt : ℚ, make_any_terminator [] t lat lng alt = some false) ∧
    (∀ (p : Terminator) (t lat lng alt : ℚ),
        truthy (make_any_terminator [p] t lat lng alt) =
          truthy (p t lat lng alt)) ∧
    (∀ (ps : List Terminator) (t lat lng alt : ℚ),
        truthy (make_any_terminator ps t lat lng alt) = true ↔
          ∃ p ∈ ps, truthy (p t lat lng alt) = true) := by
  refine ⟨fun _ _ _ _ => rfl, ?_, ?_⟩
  · intro p t lat lng alt
    simp [make_any_terminator, truthy]
  · intro ps t lat lng alt
    simp [make_any_terminator, truthy, List.any_eq_true]

/-- A constant sunrise/sunset oracle: on the evaluation date sunrise is at
100000 and sunset at 50000 (UTC timestamps), so the descent window is
(50000, 100000). -/
def sunConst : SunOracle := fun _ _ _ => (some 100000, some 50000)

/-- Scheduler A: unbounded descent (`descent_duration = -1`). -/
def paramsA : UpDownParams := ⟨5, 30000, 5, 0, -1⟩

/-- Scheduler B: descent capped at `descent_duration = 10` seconds. -/
def paramsB : UpDownParams := ⟨5, 30000, 7, 0, 10⟩

/-- C5 (refuted by the code): the `descend_mark` carried by the sun-relative
scheduler is a module-global shared by every closure `make_ascent_descent`
returns, not per-trajectory state.  Interleaving one evaluation of scheduler
A (at t=60000, inside the descent window) before scheduler B's evaluation
(at t=60020) makes B hold — A's window-entry mark 60000 plus B's duration 10
is exceeded — whereas B alone at the same state descends at rate 7. -/
theorem up_down_marker_shared_interference :
    outputsOf false (runShared sunConst paramsA paramsB (-1)
        [(true, (60000, 10, 10, 1000)), (false, (60020, 10, 10, 900))]) =
      [(0, 0, 0)] ∧
    runModel sunConst paramsB (-1) [(60020, 10, 10, 900)] = [(0, 0, -7)] ∧
    ((0, 0, 0) : ℚ × ℚ × ℚ) ≠ (0, 0, -7) := by
  refine ⟨?_, ?_, by norm_num [Prod.ext_iff]⟩
  · norm_num [runShared, up_down_step, sunConst, paramsA, paramsB, outputsOf,
      List.filterMap_cons]
  · norm_num [runModel, up_down_step, sunConst, paramsB]

end Tawhiri
